import Mathlib

/-!
Verification of the Yoda-LLM chatbot repository: a shallow embedding of its
conversation data model, prompt renderer, generation wrapper and session
loops, together with proofs of the specified properties.

Source files embedded here:
  - src/model/base_conversation.py  (BaseConversation, add_question,
    add_answer, __str__ — the prompt renderer)
  - src/model/yoda_conversation.py (YodaConversation: fixed system prompt)
  - src/util/prompt_util.py         (prompt: tokenize, generate, decode slice)
  - src/model/ui/yoda_model.py      (YodaModel: busy flag, background body,
    get_conversation_history, clear_conversation)
  - src/main.py and src/cli.py      (the two command-line loops)
-/

/-! ## Models of Python string builtins

Python's `str.strip`, `str.lower` and `"sep".join` are modelled directly on
the character list, so that every definition below evaluates inside the
kernel. -/

/-- Model of Python `str.strip()`: drop whitespace at both ends. -/
def pyStrip (s : String) : String :=
  ⟨((s.data.dropWhile Char.isWhitespace).reverse.dropWhile Char.isWhitespace).reverse⟩

/-- Model of Python `str.lower()` (ASCII case folding, as used here). -/
def pyLower (s : String) : String :=
  ⟨s.data.map Char.toLower⟩

/-- Model of Python `sep.join(list)`. -/
def joinSep (sep : String) : List String → String
  | [] => ""
  | [x] => x
  | x :: y :: xs => x ++ sep ++ joinSep sep (y :: xs)

/-- Function `catMap f l` is `(l.map f).flatten`, the accumulation performed by a
Python loop that appends a few items per iteration. -/
def catMap (f : α → List β) : List α → List β
  | [] => []
  | a :: l => f a ++ catMap f l

/-! ## Conversation data model (src/model/base_conversation.py) -/

/-- Embedding of `BaseConversation`: the two append-only sequences plus the
fixed system prompt. -/
structure BaseConversation where
  questions : List String
  answers : List String
  system_prompt : String
deriving DecidableEq, Repr

/-- Embedding of `BaseConversation.add_question`: append a user question. -/
def add_question (c : BaseConversation) (q : String) : BaseConversation :=
  { c with questions := c.questions ++ [q] }

/-- Embedding of `BaseConversation.add_answer`: append an assistant answer. -/
def add_answer (c : BaseConversation) (a : String) : BaseConversation :=
  { c with answers := c.answers ++ [a] }

/-- The fixed system prompt of `YodaConversation`
(src/model/yoda_conversation.py). -/
def yodaSystemPrompt : String :=
  "You are a Yoda chatbot. You will answer questions in the style of Yoda from Star Wars matching the tone, language, grammar, and style of Yoda."

/-- A fresh `YodaConversation()`. -/
def yodaConversationInit : BaseConversation :=
  { questions := [], answers := [], system_prompt := yodaSystemPrompt }

/-! ## The prompt renderer (`BaseConversation.__str__`) -/

/-- The user-turn segment `f"<start_of_turn>user\n{q}<end_of_turn>"`. -/
def userSeg (q : String) : String :=
  "<start_of_turn>user\n" ++ q ++ "<end_of_turn>"

/-- The closed assistant-turn segment
`f"<start_of_turn>model\n{a}<end_of_turn>"`. -/
def modelSeg (a : String) : String :=
  "<start_of_turn>model\n" ++ a ++ "<end_of_turn>"

/-- The open assistant marker appended after a pending question. -/
def openMarker : String := "<start_of_turn>model"

/-- The items appended by iteration `i` of the loop in
`BaseConversation.__str__`: the user segment when `i < len(questions)`,
then the closed model segment when `i < len(answers)`, or the open marker
when `len(questions) > len(answers)` and `i == len(answers)`. -/
def turnItems (qs as : List String) (i : Nat) : List String :=
  (match qs[i]? with
   | some q => [userSeg q]
   | none => []) ++
  (match as[i]? with
   | some a => [modelSeg a]
   | none => if qs.length > as.length ∧ i = as.length then [openMarker] else [])

/-- The leading item of the rendered output: the stripped system prompt when
it is non-empty (`if self._system_prompt: output.append(...)`). -/
def sysItems (c : BaseConversation) : List String :=
  if c.system_prompt = "" then [] else [pyStrip c.system_prompt]

/-- The list `output` built by `BaseConversation.__str__` before joining. -/
def renderItems (c : BaseConversation) : List String :=
  sysItems c ++
    catMap (turnItems c.questions c.answers)
      (List.range (max c.questions.length c.answers.length))

/-- Embedding of `BaseConversation.__str__`: empty string when there is no
system prompt and no turns, else the newline-join of the built items. -/
def render (c : BaseConversation) : String :=
  if c.system_prompt = "" ∧ c.questions = [] ∧ c.answers = [] then ""
  else joinSep "\n" (renderItems c)

/-! ## Spec-side description of the rendered shape

These definitions follow the spec's wording: closed (question, answer)
pairs in arrival order, then — when questions outnumber answers — the first
pending question followed by the open marker and the remaining questions. -/

/-- Adjacent closed pairs: for each zipped pair, the user segment
immediately followed by its answer segment. -/
def pairItems (qs as : List String) : List String :=
  catMap (fun p => [userSeg p.1, modelSeg p.2]) (qs.zip as)

/-- The tail rendered for the questions beyond the answered ones. -/
def pendingItems : List String → List String
  | [] => []
  | q :: qs => userSeg q :: openMarker :: qs.map userSeg

/-- The full interleaving the spec describes. -/
def interleavedItems (qs as : List String) : List String :=
  pairItems qs as ++ pendingItems (qs.drop as.length)

/-- Scenario check from the spec: empty persona, one question. -/
theorem render_scenario_single_question :
    render { questions := ["Hello"], answers := [], system_prompt := "" }
    = "<start_of_turn>user\nHello<end_of_turn>\n<start_of_turn>model" := by decide

/-- Scenario check from the spec: one closed pair, then a pending question. -/
theorem render_scenario_pending_after_pair :
    render { questions := ["Hi", "How are you?"], answers := ["Greetings."], system_prompt := "" }
    = "<start_of_turn>user\nHi<end_of_turn>\n<start_of_turn>model\nGreetings.<end_of_turn>\n<start_of_turn>user\nHow are you?<end_of_turn>\n<start_of_turn>model" := by decide

/-! ## Structural lemmas about the renderer -/

theorem catMap_append (f : α → List β) (l₁ l₂ : List α) :
    catMap f (l₁ ++ l₂) = catMap f l₁ ++ catMap f l₂ := by
  induction l₁ with
  | nil => rfl
  | cons a l ih => simp [catMap, ih]

theorem catMap_map (f : β → List γ) (g : α → β) (l : List α) :
    catMap f (l.map g) = catMap (fun a => f (g a)) l := by
  induction l with
  | nil => rfl
  | cons a l ih => simp [catMap, ih]

theorem catMap_range_succ (f : Nat → List β) (n : Nat) :
    catMap f (List.range (n + 1)) = f 0 ++ catMap (fun i => f (i + 1)) (List.range n) := by
  rw [List.range_succ_eq_map]
  simp [catMap, catMap_map]

/-- The per-index item of a question-only tail. -/
def userOnly (qs : List String) (i : Nat) : List String :=
  match qs[i]? with
  | some q => [userSeg q]
  | none => []

theorem catMap_userOnly (qs : List String) :
    catMap (userOnly qs) (List.range qs.length) = qs.map userSeg := by
  induction qs with
  | nil => rfl
  | cons q qs ih =>
    rw [List.length_cons, catMap_range_succ]
    have hshift : (fun i => userOnly (q :: qs) (i + 1)) = userOnly qs := by
      funext i
      simp [userOnly]
    rw [hshift, ih]
    simp [userOnly]

theorem catMap_turnItems_nil (q : String) (qs : List String) :
    catMap (turnItems (q :: qs) []) (List.range (q :: qs).length)
      = userSeg q :: openMarker :: qs.map userSeg := by
  rw [List.length_cons, catMap_range_succ]
  have hshift : (fun i => turnItems (q :: qs) [] (i + 1)) = userOnly qs := by
    funext i
    simp [turnItems, userOnly]
  rw [hshift, catMap_userOnly]
  simp [turnItems]

theorem catMap_turnItems (as qs : List String) (h : as.length ≤ qs.length) :
    catMap (turnItems qs as) (List.range qs.length)
      = pairItems qs as ++ pendingItems (qs.drop as.length) := by
  induction as generalizing qs with
  | nil =>
    cases qs with
    | nil => rfl
    | cons q qs =>
      rw [catMap_turnItems_nil]
      simp [pairItems, pendingItems, catMap]
  | cons a as ih =>
    cases qs with
    | nil => simp at h
    | cons q qs =>
      rw [List.length_cons, catMap_range_succ]
      have hshift : (fun i => turnItems (q :: qs) (a :: as) (i + 1)) = turnItems qs as := by
        funext i
        simp only [turnItems, List.getElem?_cons_succ, List.length_cons]
        have hc : ((qs.length + 1 > as.length + 1) ∧ i + 1 = as.length + 1)
            ↔ ((qs.length > as.length) ∧ i = as.length) := by omega
        rw [if_congr hc rfl rfl]
      rw [hshift, ih qs (by simpa using h)]
      simp only [turnItems, pairItems, catMap, List.length_cons, List.drop_succ_cons,
        List.zip_cons_cons, List.getElem?_cons_zero, List.append_assoc, List.cons_append,
        List.nil_append]
      rfl

theorem renderItems_eq (c : BaseConversation)
    (h : c.answers.length ≤ c.questions.length) :
    renderItems c = sysItems c ++ interleavedItems c.questions c.answers := by
  unfold renderItems interleavedItems
  rw [Nat.max_eq_left h, catMap_turnItems _ _ h]

theorem render_eq_joinSep (c : BaseConversation) :
    render c = joinSep "\n" (renderItems c) := by
  unfold render
  split
  · rename_i hemp
    obtain ⟨h1, h2, h3⟩ := hemp
    simp [renderItems, sysItems, h1, h2, h3, catMap, joinSep]
  · rfl

/-! ## Recognizing segments by their role tag -/

/-- A user-tagged segment: its first 20 characters are the user turn tag. -/
def isUserTagged (s : String) : Bool :=
  decide (s.data.take 20 = "<start_of_turn>user\n".data)

/-- A closed assistant-tagged segment: its first 21 characters are the model
turn tag followed by a newline (the bare open marker does not qualify). -/
def isClosedModelTagged (s : String) : Bool :=
  decide (s.data.take 21 = "<start_of_turn>model\n".data)

theorem isUserTagged_userSeg (q : String) : isUserTagged (userSeg q) = true := by
  simp only [isUserTagged, userSeg, String.data_append, decide_eq_true_eq]
  rw [List.append_assoc, List.take_append_of_le_length (by decide)]
  decide

theorem isUserTagged_modelSeg (a : String) : isUserTagged (modelSeg a) = false := by
  simp only [isUserTagged, modelSeg, String.data_append, decide_eq_false_iff_not]
  rw [List.append_assoc, List.take_append_of_le_length (by decide)]
  decide

theorem isUserTagged_openMarker : isUserTagged openMarker = false := by decide

theorem isClosedModelTagged_modelSeg (a : String) :
    isClosedModelTagged (modelSeg a) = true := by
  simp only [isClosedModelTagged, modelSeg, String.data_append, decide_eq_true_eq]
  rw [List.append_assoc, List.take_append_of_le_length (by decide)]
  decide

theorem isClosedModelTagged_userSeg (q : String) :
    isClosedModelTagged (userSeg q) = false := by
  simp only [isClosedModelTagged, userSeg, String.data_append, decide_eq_false_iff_not]
  intro h
  have h20 := congrArg (List.take 20) h
  rw [List.take_take, List.append_assoc,
    show min 20 21 = 20 from rfl,
    List.take_append_of_le_length (by decide)] at h20
  revert h20
  decide

theorem isClosedModelTagged_openMarker : isClosedModelTagged openMarker = false := by
  decide

/-! ## Counting the tagged segments -/

theorem countP_pairItems_user (ps : List (String × String)) :
    (catMap (fun p => [userSeg p.1, modelSeg p.2]) ps).countP isUserTagged = ps.length := by
  induction ps with
  | nil => rfl
  | cons p ps ih =>
    simp [catMap, List.countP_cons, isUserTagged_userSeg, isUserTagged_modelSeg, ih]

theorem countP_pairItems_model (ps : List (String × String)) :
    (catMap (fun p => [userSeg p.1, modelSeg p.2]) ps).countP isClosedModelTagged
      = ps.length := by
  induction ps with
  | nil => rfl
  | cons p ps ih =>
    simp [catMap, List.countP_cons, isClosedModelTagged_userSeg,
      isClosedModelTagged_modelSeg, ih]

theorem countP_pendingItems_user (rest : List String) :
    (pendingItems rest).countP isUserTagged = rest.length := by
  cases rest with
  | nil => rfl
  | cons q qs =>
    simp [pendingItems, List.countP_cons, isUserTagged_userSeg, isUserTagged_openMarker,
      List.countP_map, Function.comp_def, isUserTagged_userSeg]

theorem countP_pendingItems_model (rest : List String) :
    (pendingItems rest).countP isClosedModelTagged = 0 := by
  cases rest with
  | nil => rfl
  | cons q qs =>
    simp [pendingItems, List.countP_cons, isClosedModelTagged_userSeg,
      isClosedModelTagged_openMarker, List.countP_map, Function.comp_def,
      List.countP_eq_zero.mpr]

theorem countP_interleaved_user (qs as : List String) (h : as.length ≤ qs.length) :
    (interleavedItems qs as).countP isUserTagged = qs.length := by
  unfold interleavedItems pairItems
  rw [List.countP_append, countP_pairItems_user, countP_pendingItems_user,
    List.length_zip, List.length_drop]
  omega

theorem countP_interleaved_model (qs as : List String) (h : as.length ≤ qs.length) :
    (interleavedItems qs as).countP isClosedModelTagged = as.length := by
  unfold interleavedItems pairItems
  rw [List.countP_append, countP_pairItems_model, countP_pendingItems_model,
    List.length_zip]
  omega

/-! ## Claim C1: full interleaving of the rendered output -/

/-- C1: for every conversation with N questions and M ≤ N answers, the
rendered output is the newline-join of the (optional) system prompt followed
by the interleaving that pairs the i-th answer segment immediately after the
i-th question segment, both sequences in original append order; that
interleaving contains exactly N user-tagged segments and exactly M closed
assistant-tagged segments. -/
theorem claim_c1_render_interleaving (c : BaseConversation)
    (h : c.answers.length ≤ c.questions.length) :
    render c = joinSep "\n" (sysItems c ++ interleavedItems c.questions c.answers)
    ∧ (interleavedItems c.questions c.answers).countP isUserTagged = c.questions.length
    ∧ (interleavedItems c.questions c.answers).countP isClosedModelTagged
        = c.answers.length := by
  refine ⟨?_, countP_interleaved_user _ _ h, countP_interleaved_model _ _ h⟩
  rw [render_eq_joinSep, renderItems_eq c h]

/-- A concrete conversation used to instantiate `claim_c1_render_interleaving`. -/
def c1WitnessConv : BaseConversation :=
  { questions := ["Hi", "How are you?"], answers := ["Greetings."], system_prompt := "" }

/-- Witness for C1 at a concrete two-question, one-answer history. -/
theorem claim_c1_render_interleaving_witness :
    c1WitnessConv.answers.length ≤ c1WitnessConv.questions.length
    ∧ (render c1WitnessConv
        = joinSep "\n" (sysItems c1WitnessConv
            ++ interleavedItems c1WitnessConv.questions c1WitnessConv.answers)
      ∧ (interleavedItems c1WitnessConv.questions c1WitnessConv.answers).countP
          isUserTagged = c1WitnessConv.questions.length
      ∧ (interleavedItems c1WitnessConv.questions c1WitnessConv.answers).countP
          isClosedModelTagged = c1WitnessConv.answers.length) :=
  ⟨by decide, claim_c1_render_interleaving c1WitnessConv (by decide)⟩

/-! ## Claim C2: position of the open assistant marker -/

theorem joinSep_append_single (sep : String) :
    ∀ (l : List String) (x : String), ∃ pre, joinSep sep (l ++ [x]) = pre ++ x := by
  intro l
  induction l with
  | nil => intro x; exact ⟨"", rfl⟩
  | cons a l ih =>
    intro x
    cases l with
    | nil => exact ⟨a ++ sep, rfl⟩
    | cons b l' =>
      obtain ⟨p, hp⟩ := ih x
      refine ⟨a ++ sep ++ p, ?_⟩
      have hstep : joinSep sep ((a :: b :: l') ++ [x])
          = a ++ sep ++ joinSep sep ((b :: l') ++ [x]) := rfl
      rw [hstep, hp, ← String.append_assoc]

/-- A two-pending-question history refuting C2 as stated. -/
def c2CexConv : BaseConversation :=
  { questions := ["a", "b"], answers := [], system_prompt := "" }

/-- C2 counterexample: with two questions and no answers (N > M), the render
does not end with the open marker — the marker is emitted after the first
pending question, mid-string, and the final segment is the second question. -/
theorem claim_c2_counterexample :
    c2CexConv.answers.length < c2CexConv.questions.length
    ∧ ¬ ∃ pre : String, render c2CexConv = pre ++ openMarker := by
  refine ⟨by decide, ?_⟩
  rintro ⟨pre, h⟩
  have h2 := congrArg (fun s : String => s.data.getLast?) h
  simp only [String.data_append, List.getLast?_append] at h2
  rw [show openMarker.data.getLast? = some 'l' from rfl] at h2
  rw [show (some 'l').or pre.data.getLast? = some 'l' from rfl] at h2
  exact absurd h2 (by decide)

/-- C2 amended: when there is exactly one more question than answers
(N = M + 1, the only pending shape arising from a turn in flight), the
rendered string ends with the open assistant marker, with nothing
following it. -/
theorem claim_c2_amended (c : BaseConversation)
    (h : c.questions.length = c.answers.length + 1) :
    ∃ pre : String, render c = pre ++ openMarker := by
  rw [render_eq_joinSep, renderItems_eq c (by omega)]
  unfold interleavedItems
  obtain ⟨q, hq⟩ : ∃ q, c.questions.drop c.answers.length = [q] := by
    have hlen : (c.questions.drop c.answers.length).length = 1 := by
      rw [List.length_drop]; omega
    exact List.length_eq_one.mp hlen
  rw [hq]
  have hsplit : sysItems c ++ (pairItems c.questions c.answers ++ pendingItems [q])
      = (sysItems c ++ pairItems c.questions c.answers ++ [userSeg q]) ++ [openMarker] := by
    simp [pendingItems]
  rw [hsplit]
  exact joinSep_append_single "\n" _ openMarker

/-- A concrete pending-turn conversation instantiating `claim_c2_amended`. -/
def c2WitnessConv : BaseConversation :=
  { questions := ["Hello"], answers := [], system_prompt := "" }

/-- Witness for the amended C2 at one question and no answers. -/
theorem claim_c2_amended_witness :
    c2WitnessConv.questions.length = c2WitnessConv.answers.length + 1
    ∧ ∃ pre : String, render c2WitnessConv = pre ++ openMarker :=
  ⟨by decide, claim_c2_amended c2WitnessConv (by decide)⟩

/-! ## Claim C8: fully answered histories render closed -/

theorem openMarker_ne_userSeg (q : String) : openMarker ≠ userSeg q := by
  intro h
  have hlen := congrArg (fun s : String => s.data.length) h
  simp only [userSeg, String.data_append, List.length_append] at hlen
  rw [show openMarker.data.length = 20 from rfl,
    show "<start_of_turn>user\n".data.length = 20 from rfl,
    show "<end_of_turn>".data.length = 13 from rfl] at hlen
  omega

theorem openMarker_ne_modelSeg (a : String) : openMarker ≠ modelSeg a := by
  intro h
  have hlen := congrArg (fun s : String => s.data.length) h
  simp only [modelSeg, String.data_append, List.length_append] at hlen
  rw [show openMarker.data.length = 20 from rfl,
    show "<start_of_turn>model\n".data.length = 21 from rfl,
    show "<end_of_turn>".data.length = 13 from rfl] at hlen
  omega

theorem openMarker_not_mem_pairs (ps : List (String × String)) :
    openMarker ∉ catMap (fun p => [userSeg p.1, modelSeg p.2]) ps := by
  induction ps with
  | nil => simp [catMap]
  | cons p ps ih =>
    intro h
    simp only [catMap, List.cons_append, List.nil_append, List.mem_cons] at h
    rcases h with h | h | h
    · exact openMarker_ne_userSeg p.1 h
    · exact openMarker_ne_modelSeg p.2 h
    · exact ih h

theorem pairItems_snoc :
    ∀ (as qs : List String), qs.length = as.length → 0 < as.length →
      ∃ l, pairItems qs as = l ++ [modelSeg (as.getD (as.length - 1) "")] := by
  intro as
  induction as with
  | nil => intro qs _ h0; simp at h0
  | cons a as ih =>
    intro qs hlen _
    cases qs with
    | nil => simp at hlen
    | cons q qs =>
      cases as with
      | nil =>
        have hq : qs = [] := List.length_eq_zero.mp (by simpa using hlen)
        subst hq
        exact ⟨[userSeg q], rfl⟩
      | cons a2 as2 =>
        obtain ⟨l', hl'⟩ := ih qs (by simpa using hlen) (by simp)
        refine ⟨userSeg q :: modelSeg a :: l', ?_⟩
        have hstep : pairItems (q :: qs) (a :: a2 :: as2)
            = userSeg q :: modelSeg a :: pairItems qs (a2 :: as2) := rfl
        rw [hstep, hl']
        have hidx : (a :: a2 :: as2).getD ((a :: a2 :: as2).length - 1) ""
            = (a2 :: as2).getD ((a2 :: as2).length - 1) "" := by
          simp [List.getD_cons_succ]
        rw [hidx]
        rfl

/-- C8: when every question is answered (N = M, N > 0), the bare open
marker is not among the rendered segments (so rendering never emits an
unterminated assistant turn), and the rendered string ends with the closed
assistant segment of the last answer. The hypothesis on the system prompt
records that the fixed persona text is not itself the open marker. -/
theorem claim_c8_closed_render (c : BaseConversation)
    (hlen : c.questions.length = c.answers.length) (h0 : 0 < c.questions.length)
    (hsys : pyStrip c.system_prompt ≠ openMarker) :
    openMarker ∉ renderItems c
    ∧ ∃ pre : String,
        render c = pre ++ modelSeg (c.answers.getD (c.answers.length - 1) "") := by
  have hdrop : c.questions.drop c.answers.length = [] := by
    apply List.drop_eq_nil_of_le
    omega
  have hitems : renderItems c = sysItems c ++ pairItems c.questions c.answers := by
    rw [renderItems_eq c (by omega)]
    unfold interleavedItems
    rw [hdrop]
    simp [pendingItems]
  constructor
  · rw [hitems]
    intro h
    rcases List.mem_append.mp h with h | h
    · unfold sysItems at h
      split at h
      · simp at h
      · rcases List.mem_singleton.mp h with h
        exact hsys h.symm
    · exact openMarker_not_mem_pairs _ h
  · obtain ⟨l, hl⟩ := pairItems_snoc c.answers c.questions hlen (by omega)
    rw [render_eq_joinSep, hitems, hl, ← List.append_assoc]
    exact joinSep_append_single "\n" _ _

/-- A concrete fully-answered conversation instantiating
`claim_c8_closed_render`. -/
def c8WitnessConv : BaseConversation :=
  { questions := ["Hi"], answers := ["Greetings."], system_prompt := "" }

/-- Witness for C8 at one answered question. -/
theorem claim_c8_closed_render_witness :
    (c8WitnessConv.questions.length = c8WitnessConv.answers.length
      ∧ 0 < c8WitnessConv.questions.length
      ∧ pyStrip c8WitnessConv.system_prompt ≠ openMarker)
    ∧ (openMarker ∉ renderItems c8WitnessConv
      ∧ ∃ pre : String,
          render c8WitnessConv
            = pre ++ modelSeg (c8WitnessConv.answers.getD
                (c8WitnessConv.answers.length - 1) "")) :=
  ⟨⟨by decide, by decide, by decide⟩,
    claim_c8_closed_render c8WitnessConv (by decide) (by decide) (by decide)⟩

/-! ## Claim C3: the generation wrapper never echoes the prompt
(src/util/prompt_util.py)

The tokenizer and model are external black boxes, so `prompt` is
parameterized by `encode`, `generate` (returning `outputs[0]`, the full
token sequence) and `decode`. The code slices off the first
`input_ids.shape[1]` tokens before decoding. -/

/-- Embedding of `prompt(model, tokenizer, prompt)`: encode the input,
obtain the model output sequence, drop the input-length head, decode. -/
def prompt (encode : String → List Nat) (generate : List Nat → List Nat)
    (decode : List Nat → String) (p : String) : String :=
  let input_ids := encode p
  let output_tokens := generate input_ids
  decode (output_tokens.drop input_ids.length)

/-- C3: whenever the model output extends the encoded prompt by some
generated tokens (the round-trip convention of the external library), the
wrapper returns exactly the decoding of those generated tokens, never the
decoded prompt tokens. -/
theorem claim_c3_prompt_strips_input (encode : String → List Nat)
    (generate : List Nat → List Nat) (decode : List Nat → String)
    (p : String) (generated : List Nat)
    (hgen : generate (encode p) = encode p ++ generated) :
    prompt encode generate decode p = decode generated := by
  show decode ((generate (encode p)).drop (encode p).length) = decode generated
  rw [hgen, List.drop_left]

/-- Concrete encoder for the C3 witness: one token per character. -/
def c3Encode : String → List Nat := fun s => s.data.map Char.toNat

/-- Concrete model for the C3 witness: echoes its input and appends token 42. -/
def c3Generate : List Nat → List Nat := fun l => l ++ [42]

/-- Concrete decoder for the C3 witness. -/
def c3Decode : List Nat → String := fun l => String.mk (l.map Char.ofNat)

/-- Witness for C3 at a concrete prompt and model output. -/
theorem claim_c3_prompt_strips_input_witness :
    c3Generate (c3Encode "Hi") = c3Encode "Hi" ++ [42]
    ∧ prompt c3Encode c3Generate c3Decode "Hi" = c3Decode [42] :=
  ⟨by decide, claim_c3_prompt_strips_input c3Encode c3Generate c3Decode "Hi" [42] (by decide)⟩

/-! ## The UI model layer (src/model/ui/yoda_model.py) -/

/-- Embedding of `YodaModel` state. `has_model` / `has_tokenizer` record
`self.model is not None` / `self.tokenizer is not None`. -/
structure YodaModel where
  conversation : BaseConversation
  has_model : Bool
  has_tokenizer : Bool
  is_initialized : Bool
  is_generating : Bool
deriving DecidableEq, Repr

/-- A fresh `YodaModel()`. -/
def yodaModelInit : YodaModel :=
  { conversation := yodaConversationInit, has_model := false, has_tokenizer := false,
    is_initialized := false, is_generating := false }

/-- Embedding of `YodaModel.is_ready`. -/
def is_ready (m : YodaModel) : Bool :=
  m.is_initialized && m.has_model && m.has_tokenizer

/-- Outcome of the synchronous prefix of `generate_response`:
`rejected msg` means `error_callback` (when provided) is invoked
synchronously with `msg` and no worker thread starts; `started` means the
worker thread is spawned. -/
inductive GenSync where
  | rejected (errMsg : String)
  | started
deriving DecidableEq, Repr

/-- The synchronous prefix of `YodaModel.generate_response`: the readiness
check, then the busy-flag check, performed before any thread is started.
The state is returned unchanged — this prefix mutates nothing. -/
def generate_response_sync (m : YodaModel) : YodaModel × GenSync :=
  if !(is_ready m) then
    (m, .rejected "Model is not ready yet. Please wait for initialization.")
  else if m.is_generating then
    (m, .rejected "Already generating a response. Please wait.")
  else (m, .started)

/-- The background body `_generate` of `generate_response`: set the busy
flag, append the question, call `prompt` (modelled by `promptResult`:
`.ok answer` for a normal return, `.error e` for a raised exception), on
success append the answer and deliver the stripped answer to
`response_callback`; on exception deliver the formatted message to
`error_callback`; the `finally` clause clears the busy flag on both paths.
Returns the final state, the `response_callback` argument (if invoked) and
the `error_callback` argument (if invoked). -/
def generate_body (m : YodaModel) (question : String)
    (promptResult : Except String String) :
    YodaModel × Option String × Option String :=
  let m1 := { m with is_generating := true }
  let m2 := { m1 with conversation := add_question m1.conversation question }
  match promptResult with
  | .ok answer =>
    let m3 := { m2 with conversation := add_answer m2.conversation answer }
    ({ m3 with is_generating := false }, some (pyStrip answer), none)
  | .error e =>
    ({ m2 with is_generating := false }, none, some ("Error generating response: " ++ e))

/-- C4: calling `generate_response` while the busy flag is set rejects the
request synchronously: the error callback receives a rejection message, no
worker thread is started, the state — conversation history and busy flag
included — is left unchanged. -/
theorem claim_c4_busy_rejection (m : YodaModel) (h : m.is_generating = true) :
    (generate_response_sync m).1 = m
    ∧ (∃ msg, (generate_response_sync m).2 = GenSync.rejected msg)
    ∧ (generate_response_sync m).2 ≠ GenSync.started
    ∧ (generate_response_sync m).1.conversation = m.conversation
    ∧ (generate_response_sync m).1.is_generating = true := by
  unfold generate_response_sync
  cases hr : is_ready m with
  | true => simp [hr, h]
  | false => simp [hr, h]

/-- A concrete busy model state instantiating `claim_c4_busy_rejection`. -/
def c4WitnessModel : YodaModel :=
  { conversation := yodaConversationInit, has_model := true, has_tokenizer := true,
    is_initialized := true, is_generating := true }

/-- Witness for C4 at a concrete busy state. -/
theorem claim_c4_busy_rejection_witness :
    c4WitnessModel.is_generating = true
    ∧ ((generate_response_sync c4WitnessModel).1 = c4WitnessModel
      ∧ (∃ msg, (generate_response_sync c4WitnessModel).2 = GenSync.rejected msg)
      ∧ (generate_response_sync c4WitnessModel).2 ≠ GenSync.started
      ∧ (generate_response_sync c4WitnessModel).1.conversation
          = c4WitnessModel.conversation
      ∧ (generate_response_sync c4WitnessModel).1.is_generating = true) :=
  ⟨rfl, claim_c4_busy_rejection c4WitnessModel rfl⟩

/-- C5: however the background body finishes, the busy flag is false
afterwards; and when `prompt` raises, the error callback receives the
distinguishable `"Error generating response: ..."` string and the
conversation keeps the appended question with no matching answer. -/
theorem claim_c5_body_clears_flag (m : YodaModel) (q : String)
    (r : Except String String) :
    (generate_body m q r).1.is_generating = false
    ∧ (∀ e, r = Except.error e →
        (generate_body m q r).2.2 = some ("Error generating response: " ++ e)
        ∧ (generate_body m q r).1.conversation.questions
            = m.conversation.questions ++ [q]
        ∧ (generate_body m q r).1.conversation.answers = m.conversation.answers) := by
  cases r with
  | ok a =>
    refine ⟨rfl, ?_⟩
    intro e he
    exact Except.noConfusion he
  | error e0 =>
    refine ⟨rfl, ?_⟩
    intro e he
    injection he with he'
    subst he'
    exact ⟨rfl, rfl, rfl⟩

/-- A concrete state instantiating `claim_c5_body_clears_flag`. -/
def c5WitnessModel : YodaModel :=
  { conversation := yodaConversationInit, has_model := true, has_tokenizer := true,
    is_initialized := true, is_generating := false }

/-- Witness for C5 at a concrete failing generation. -/
theorem claim_c5_body_clears_flag_witness :
    (generate_body c5WitnessModel "Q" (Except.error "boom")).1.is_generating = false
    ∧ ((generate_body c5WitnessModel "Q" (Except.error "boom")).2.2
        = some ("Error generating response: " ++ "boom")
      ∧ (generate_body c5WitnessModel "Q" (Except.error "boom")).1.conversation.questions
          = c5WitnessModel.conversation.questions ++ ["Q"]
      ∧ (generate_body c5WitnessModel "Q" (Except.error "boom")).1.conversation.answers
          = c5WitnessModel.conversation.answers) :=
  ⟨(claim_c5_body_clears_flag c5WitnessModel "Q" (Except.error "boom")).1,
    (claim_c5_body_clears_flag c5WitnessModel "Q" (Except.error "boom")).2 "boom" rfl⟩

/-! ## Claim C10: `YodaModel.get_conversation_history` -/

/-- Embedding of `get_conversation_history`: for each question index, pair
the question with `answers[i] if i < len(answers) else ""`. (`getD` with
default `""` coincides with the guarded Python index on every in-range
`i`.) -/
def get_conversation_history (m : YodaModel) : List (String × String) :=
  (List.range m.conversation.questions.length).map
    (fun i => (m.conversation.questions.getD i "",
      if i < m.conversation.answers.length
      then m.conversation.answers.getD i "" else ""))

/-- C10: the history has one entry per question (extra answers are
omitted); the i-th entry pairs the i-th question with the i-th answer when
it exists, and with the empty string when the question is pending. -/
theorem claim_c10_history_pairs (m : YodaModel) :
    (get_conversation_history m).length = m.conversation.questions.length
    ∧ (∀ i, i < m.conversation.answers.length → i < m.conversation.questions.length →
        (get_conversation_history m).getD i ("", "")
          = (m.conversation.questions.getD i "", m.conversation.answers.getD i ""))
    ∧ (∀ i, m.conversation.answers.length ≤ i → i < m.conversation.questions.length →
        (get_conversation_history m).getD i ("", "")
          = (m.conversation.questions.getD i "", "")) := by
  refine ⟨by simp [get_conversation_history], ?_, ?_⟩
  · intro i h1 h2
    simp [get_conversation_history, List.getD_eq_getElem?_getD, List.getElem?_map,
      List.getElem?_range, h2, h1]
  · intro i h1 h2
    simp [get_conversation_history, List.getD_eq_getElem?_getD, List.getElem?_map,
      List.getElem?_range, h2, Nat.not_lt.mpr h1]

/-- A concrete model state instantiating `claim_c10_history_pairs`. -/
def c10WitnessModel : YodaModel :=
  { conversation := { questions := ["q1", "q2"], answers := ["a1"], system_prompt := "" },
    has_model := true, has_tokenizer := true, is_initialized := true,
    is_generating := false }

/-- Witness for C10: one answered and one pending question. -/
theorem claim_c10_history_pairs_witness :
    (get_conversation_history c10WitnessModel).length
      = c10WitnessModel.conversation.questions.length
    ∧ (get_conversation_history c10WitnessModel).getD 0 ("", "") = ("q1", "a1")
    ∧ (get_conversation_history c10WitnessModel).getD 1 ("", "") = ("q2", "") := by
  refine ⟨(claim_c10_history_pairs c10WitnessModel).1, ?_, ?_⟩
  · have h := (claim_c10_history_pairs c10WitnessModel).2.1 0 (by decide) (by decide)
    exact h.trans (by decide)
  · have h := (claim_c10_history_pairs c10WitnessModel).2.2 1 (by decide) (by decide)
    exact h.trans (by decide)

/-! ## The two command-line loops (src/main.py and src/cli.py)

One iteration of each loop is embedded as a function of the conversation,
the raw input line, and the outcome of the `prompt` call (`.ok answer` or
`.error e` for a raised exception). -/

/-- The exit keywords of `main.py`. -/
def exit_words : List String := ["quit", "exit", "bye", "goodbye"]

/-- Outcome of one `main.py` loop iteration. -/
inductive MainOutcome where
  | skippedEmpty
  | exited
  | answered (text : String)
  | errored (e : String)
deriving DecidableEq, Repr

/-- One iteration of the `while True` loop of `main.py`: strip the input;
empty input continues; an exit keyword (lowercased) breaks with a farewell;
otherwise append the question, call `prompt`, and on success append and
print the answer — a raised exception is caught by the generic handler,
leaving the question without an answer. -/
def main_turn (conv : BaseConversation) (line : String)
    (r : Except String String) : BaseConversation × MainOutcome :=
  let user_question := pyStrip line
  if user_question = "" then (conv, .skippedEmpty)
  else if pyLower user_question ∈ exit_words then (conv, .exited)
  else
    let conv1 := add_question conv user_question
    match r with
    | .ok answer => (add_answer conv1 answer, .answered (pyStrip answer))
    | .error e => (conv1, .errored e)

/-- Outcome of one `cli.py` loop iteration. `raised e` records an
uncaught exception (cli.py has no try/except around its body). -/
inductive CliOutcome where
  | exited
  | answered (text : String)
  | raised (e : String)
deriving DecidableEq, Repr

/-- One iteration of the `while True` loop of `cli.py`: exit only when the
lowercased (not stripped) input equals "exit"; otherwise append the raw
input as a question and generate. -/
def cli_turn (conv : BaseConversation) (line : String)
    (r : Except String String) : BaseConversation × CliOutcome :=
  if pyLower line = "exit" then (conv, .exited)
  else
    let conv1 := add_question conv line
    match r with
    | .ok response => (add_answer conv1 response, .answered (pyStrip response))
    | .error e => (conv1, .raised e)

/-! ## Claim C6: exit keywords -/

/-- C6 counterexample: the input "bye" is (after stripping and lowercasing)
one of the exit words, yet one `cli.py` iteration on "bye" does not
terminate the loop — it appends "bye" as a question and generates. -/
theorem claim_c6_counterexample :
    pyLower (pyStrip "bye") ∈ exit_words
    ∧ (cli_turn yodaConversationInit "bye" (Except.ok "Reply")).2 ≠ CliOutcome.exited
    ∧ (cli_turn yodaConversationInit "bye" (Except.ok "Reply")).1.questions = ["bye"] := by
  refine ⟨by decide, ?_, by decide⟩
  decide

/-- C6 amended: `main.py`'s loop terminates gracefully exactly when the
stripped, lowercased input is one of "quit", "exit", "bye", "goodbye"
(so "bye" in any letter case ends it); `cli.py`'s loop terminates exactly
when the lowercased (unstripped) input equals "exit" — its only exit word. -/
theorem claim_c6_amended (conv : BaseConversation) (line : String)
    (r : Except String String) :
    ((main_turn conv line r).2 = MainOutcome.exited
      ↔ pyLower (pyStrip line) ∈ exit_words)
    ∧ ((cli_turn conv line r).2 = CliOutcome.exited ↔ pyLower line = "exit") := by
  constructor
  · unfold main_turn
    by_cases h1 : pyStrip line = ""
    · rw [h1]
      constructor
      · intro h
        rw [if_pos rfl] at h
        simp at h
      · intro h
        exact absurd h (by decide)
    · rw [if_neg h1]
      by_cases h2 : pyLower (pyStrip line) ∈ exit_words
      · simp [h2]
      · rw [if_neg h2]
        cases r with
        | ok a => simpa using h2
        | error e => simpa using h2
  · unfold cli_turn
    by_cases h : pyLower line = "exit"
    · simp [h]
    · rw [if_neg h]
      cases r with
      | ok a => simpa using h
      | error e => simpa using h

/-! ## Claim C9: empty input -/

/-- C9 counterexample: in the `cli.py` loop an empty input line is not a
no-op — the empty string is appended as a question and generation runs. -/
theorem claim_c9_counterexample :
    pyStrip "" = ""
    ∧ (cli_turn yodaConversationInit "" (Except.ok "Greetings.")).1.questions = [""]
    ∧ (cli_turn yodaConversationInit "" (Except.ok "Greetings.")).2
        = CliOutcome.answered (pyStrip "Greetings.") := by
  exact ⟨rfl, by decide, by decide⟩

/-- C9 amended: in `main.py`'s loop, an input line that is empty after
stripping is a no-op — the conversation is unchanged, no question is
appended, generation is not invoked and the loop does not terminate;
`cli.py`'s loop instead treats the empty line as an ordinary message. -/
theorem claim_c9_amended (conv : BaseConversation) (line : String)
    (r : Except String String) (h : pyStrip line = "") :
    main_turn conv line r = (conv, MainOutcome.skippedEmpty) := by
  unfold main_turn
  rw [h]
  simp

/-- Witness for the amended C9 at a whitespace-only input line. -/
theorem claim_c9_amended_witness :
    pyStrip "   " = ""
    ∧ main_turn yodaConversationInit "   " (Except.ok "Reply")
        = (yodaConversationInit, MainOutcome.skippedEmpty) :=
  ⟨by decide, claim_c9_amended yodaConversationInit "   " (Except.ok "Reply") (by decide)⟩

/-! ## Claim C7: answers never outnumber questions

The session operations are modelled as an interleaved step relation: the
completion of `initialize_model`, the two halves of a `generate_response`
whose synchronous checks passed (the body sets the busy flag and appends
the question, then later appends the answer — or not, on an exception —
and clears the flag), `clear_conversation`, and the per-turn steps of the
two command-line loops on their own conversation. -/

/-- Embedding of `YodaModel.clear_conversation`: replace the conversation with a fresh
`YodaConversation()`. The busy flag is not touched, and the code performs
no busy check. -/
def clear_conversation (m : YodaModel) : YodaModel :=
  { m with conversation := yodaConversationInit }

/-- Successful completion of `initialize_model`'s background worker. -/
def initialize_done (m : YodaModel) : YodaModel :=
  { m with is_initialized := true, has_model := true, has_tokenizer := true }

/-- The first half of the background body: set the busy flag and append
the question. -/
def gen_start (m : YodaModel) (q : String) : YodaModel :=
  { m with is_generating := true,
           conversation := add_question m.conversation q }

/-- The second half of the background body: on a normal `prompt` return
append the answer, on an exception append nothing; either way clear the
busy flag. -/
def gen_finish (m : YodaModel) (r : Except String String) : YodaModel :=
  match r with
  | .ok answer =>
    { m with conversation := add_answer m.conversation answer, is_generating := false }
  | .error _ => { m with is_generating := false }

/-- The two halves compose to exactly the embedded background body. -/
theorem gen_start_finish_eq_body (m : YodaModel) (q : String)
    (r : Except String String) :
    gen_finish (gen_start m q) r = (generate_body m q r).1 := by
  cases r <;> rfl

/-- One interleaved step of the windowed session, exactly as the code
permits it: `clear` carries no guard because `clear_conversation` checks
nothing. -/
inductive GuiStep : YodaModel → YodaModel → Prop where
  | initDone (m : YodaModel) : GuiStep m (initialize_done m)
  | genStart (m : YodaModel) (q : String) :
      (generate_response_sync m).2 = GenSync.started → GuiStep m (gen_start m q)
  | genFinish (m : YodaModel) (r : Except String String) :
      m.is_generating = true → GuiStep m (gen_finish m r)
  | clear (m : YodaModel) : GuiStep m (clear_conversation m)

/-- States of the windowed session reachable from a fresh `YodaModel()`. -/
inductive GuiReachable : YodaModel → Prop where
  | init : GuiReachable yodaModelInit
  | step {m m' : YodaModel} : GuiReachable m → GuiStep m m' → GuiReachable m'

/-- The interleaving that refutes C7 as stated: initialization completes, a
generation starts (busy flag set, question appended), `clear_conversation`
replaces the conversation mid-flight, then the still-running body appends
its answer to the fresh conversation. -/
def c7CexModel : YodaModel :=
  gen_finish (clear_conversation (gen_start (initialize_done yodaModelInit) "Q"))
    (Except.ok "A")

/-- C7 counterexample: a state reachable by the session operations in which
the conversation holds one answer and no questions. -/
theorem claim_c7_counterexample :
    GuiReachable c7CexModel
    ∧ c7CexModel.conversation.questions.length
        < c7CexModel.conversation.answers.length := by
  constructor
  · exact GuiReachable.step
      (GuiReachable.step
        (GuiReachable.step
          (GuiReachable.step GuiReachable.init (GuiStep.initDone _))
          (GuiStep.genStart _ "Q" (by decide)))
        (GuiStep.clear _))
      (GuiStep.genFinish _ (Except.ok "A") (by decide))
  · decide

/-- Relation `GuiStep` with `clear_conversation` restricted to quiescent states:
never invoked while a generation is in flight. -/
inductive GuiStepSafe : YodaModel → YodaModel → Prop where
  | initDone (m : YodaModel) : GuiStepSafe m (initialize_done m)
  | genStart (m : YodaModel) (q : String) :
      (generate_response_sync m).2 = GenSync.started → GuiStepSafe m (gen_start m q)
  | genFinish (m : YodaModel) (r : Except String String) :
      m.is_generating = true → GuiStepSafe m (gen_finish m r)
  | clear (m : YodaModel) : m.is_generating = false → GuiStepSafe m (clear_conversation m)

/-- Reachability under the restricted step relation. -/
inductive GuiReachableSafe : YodaModel → Prop where
  | init : GuiReachableSafe yodaModelInit
  | step {m m' : YodaModel} : GuiReachableSafe m → GuiStepSafe m m' → GuiReachableSafe m'

/-- Conversation states reachable by the per-turn steps of the two
command-line loops, starting from a fresh `YodaConversation()`. -/
inductive CliReachable : BaseConversation → Prop where
  | init : CliReachable yodaConversationInit
  | mainStep {c : BaseConversation} (line : String) (r : Except String String) :
      CliReachable c → CliReachable (main_turn c line r).1
  | cliStep {c : BaseConversation} (line : String) (r : Except String String) :
      CliReachable c → CliReachable (cli_turn c line r).1

/-- The strengthened inductive invariant: a generation in flight always
has its pending question already appended. -/
def guiInv (m : YodaModel) : Prop :=
  (m.is_generating = true →
    m.conversation.answers.length < m.conversation.questions.length)
  ∧ m.conversation.answers.length ≤ m.conversation.questions.length

theorem guiInv_step {m m' : YodaModel} (hm : guiInv m) (hs : GuiStepSafe m m') :
    guiInv m' := by
  obtain ⟨hgen, hle⟩ := hm
  cases hs with
  | initDone => exact ⟨hgen, hle⟩
  | genStart q _ =>
    constructor
    · intro _
      simp only [gen_start, add_question, List.length_append, List.length_cons,
        List.length_nil]
      omega
    · simp only [gen_start, add_question, List.length_append, List.length_cons,
        List.length_nil]
      omega
  | genFinish r hflag =>
    have hlt := hgen hflag
    cases r with
    | ok a =>
      constructor
      · intro h
        simp only [gen_finish] at h
        exact absurd h (by decide)
      · simp only [gen_finish, add_answer, List.length_append, List.length_cons,
          List.length_nil]
        omega
    | error e =>
      constructor
      · intro h
        simp only [gen_finish] at h
        exact absurd h (by decide)
      · exact hle
  | clear hflag =>
    constructor
    · intro h
      simp only [clear_conversation] at h
      rw [hflag] at h
      exact absurd h (by decide)
    · simp [clear_conversation, yodaConversationInit]

theorem guiInv_reachable {m : YodaModel} (h : GuiReachableSafe m) : guiInv m := by
  induction h with
  | init => exact ⟨by intro h; exact absurd h (by decide), by decide⟩
  | step _ hs ih => exact guiInv_step ih hs

theorem convInv_main_turn (c : BaseConversation) (line : String)
    (r : Except String String) (h : c.answers.length ≤ c.questions.length) :
    (main_turn c line r).1.answers.length ≤ (main_turn c line r).1.questions.length := by
  unfold main_turn
  by_cases h1 : pyStrip line = ""
  · simp only [if_pos h1]
    exact h
  · rw [if_neg h1]
    by_cases h2 : pyLower (pyStrip line) ∈ exit_words
    · rw [if_pos h2]
      exact h
    · rw [if_neg h2]
      cases r with
      | ok a =>
        simp only [add_answer, add_question, List.length_append, List.length_cons,
          List.length_nil]
        omega
      | error e =>
        simp only [add_question, List.length_append, List.length_cons, List.length_nil]
        omega

theorem convInv_cli_turn (c : BaseConversation) (line : String)
    (r : Except String String) (h : c.answers.length ≤ c.questions.length) :
    (cli_turn c line r).1.answers.length ≤ (cli_turn c line r).1.questions.length := by
  unfold cli_turn
  by_cases h1 : pyLower line = "exit"
  · rw [if_pos h1]
    exact h
  · rw [if_neg h1]
    cases r with
    | ok a =>
      simp only [add_answer, add_question, List.length_append, List.length_cons,
        List.length_nil]
      omega
    | error e =>
      simp only [add_question, List.length_append, List.length_cons, List.length_nil]
      omega

/-- C7 amended: provided `clear_conversation` is never invoked while a
generation is in flight, every reachable state of the windowed session has
no more answers than questions; and every conversation reachable by the
command-line loops unconditionally satisfies the same invariant. -/
theorem claim_c7_amended :
    (∀ m : YodaModel, GuiReachableSafe m →
      m.conversation.answers.length ≤ m.conversation.questions.length)
    ∧ (∀ c : BaseConversation, CliReachable c →
      c.answers.length ≤ c.questions.length) := by
  constructor
  · intro m h
    exact (guiInv_reachable h).2
  · intro c h
    induction h with
    | init => decide
    | mainStep line r _ ih => exact convInv_main_turn _ line r ih
    | cliStep line r _ ih => exact convInv_cli_turn _ line r ih

/-- Witness for the amended C7: the state after initialization, one started
generation and a mid-flight error, reached through the restricted relation. -/
theorem claim_c7_amended_witness :
    (gen_finish (gen_start (initialize_done yodaModelInit) "Q")
        (Except.error "boom")).conversation.answers.length
      ≤ (gen_finish (gen_start (initialize_done yodaModelInit) "Q")
        (Except.error "boom")).conversation.questions.length :=
  claim_c7_amended.1 _
    (GuiReachableSafe.step
      (GuiReachableSafe.step
        (GuiReachableSafe.step GuiReachableSafe.init (GuiStepSafe.initDone _))
        (GuiStepSafe.genStart _ "Q" (by decide)))
      (GuiStepSafe.genFinish _ (Except.error "boom") (by decide)))
